import Mathlib

/-!
Shallow embedding of the context-engineering pipeline of the kontext
repository (ContextAnalyzer.ts, ContextMemory.ts, ContextSynthesizer.ts,
PromptEngineer.ts and the shared data model in types/context.ts).
Scores and confidences are modelled as rationals, timestamps as integers
(milliseconds), JavaScript strings as Lean strings.
-/

namespace Kontext

/-! ## String helpers (models of the JavaScript string operations used) -/

/-- Model of matching a pattern at the start of a character list. -/
def leadMatch : List Char → List Char → Bool
  | _, [] => true
  | [], _ :: _ => false
  | c :: cs, p :: ps => (c == p) && leadMatch cs ps

/-- Model of substring search on character lists. -/
def subMatch (p : List Char) : List Char → Bool
  | [] => p.isEmpty
  | c :: cs => leadMatch (c :: cs) p || subMatch p cs

/-- Model of JavaScript `String.prototype.includes`. -/
def strIncludes (s pat : String) : Bool :=
  subMatch pat.toList s.toList

/-- Model of JavaScript `String.prototype.toLowerCase` (ASCII). -/
def lowerStr (s : String) : String :=
  ⟨s.toList.map Char.toLower⟩

/-- Model of `Array.prototype.join(sep)`. -/
def joinWith (sep : String) : List String → String
  | [] => ""
  | [p] => p
  | p :: q :: ps => p ++ sep ++ joinWith sep (q :: ps)

/-- One pass of global literal replacement over character lists, the model
of `String.prototype.replace(new RegExp(pat, g), rep)` for a pattern with
no regex metacharacters beyond literal braces. The extra `fuel` argument
only makes the recursion structural; every match consumes at least one
character, so a fuel equal to the input length is always sufficient. -/
def replCharsAux (pat rep : List Char) : Nat → List Char → List Char
  | 0, l => l
  | _ + 1, [] => []
  | fuel + 1, c :: cs =>
    if pat ≠ [] ∧ leadMatch (c :: cs) pat then
      rep ++ replCharsAux pat rep fuel (List.drop (pat.length - 1) cs)
    else
      c :: replCharsAux pat rep fuel cs

def replChars (pat rep l : List Char) : List Char :=
  replCharsAux pat rep l.length l

/-- Global literal replacement on strings. -/
def replaceAllStr (s pat rep : String) : String :=
  ⟨replChars pat.toList rep.toList s.toList⟩

/-- Model of JavaScript truthiness for an optional string field
(`undefined` and the empty string are falsy). -/
def jsTruthy : Option String → Bool
  | none => false
  | some s => !(s == "")

/-! ## Data model (types/context.ts) -/

inductive EnvironmentType where
  | ide | browser | design | document | terminal | mixed | unknown
  deriving DecidableEq, Repr

inductive ActivityType where
  | coding | writing | research | design | communication | learning
  | debugging | idle
  deriving DecidableEq, Repr

inductive ContextSource where
  | screenshot | clipboard | windowTitle | applicationState | userInput
  | temporal
  deriving DecidableEq, Repr

inductive ExpertiseLevel where
  | beginner | intermediate | advanced | expert
  deriving DecidableEq, Repr

def envToString : EnvironmentType → String
  | .ide => "ide"
  | .browser => "browser"
  | .design => "design"
  | .document => "document"
  | .terminal => "terminal"
  | .mixed => "mixed"
  | .unknown => "unknown"

def activityToString : ActivityType → String
  | .coding => "coding"
  | .writing => "writing"
  | .research => "research"
  | .design => "design"
  | .communication => "communication"
  | .learning => "learning"
  | .debugging => "debugging"
  | .idle => "idle"

structure UserAction where
  type : String
  timestamp : Int
  details : String
  context : String
  deriving DecidableEq, Repr

structure CodeSnippet where
  language : String
  content : String
  context : String
  complexity : ℚ
  purpose : String
  deriving DecidableEq, Repr

structure ContentAnalysis where
  textContent : List String
  codeSnippets : List CodeSnippet
  uiElements : List String
  mediaElements : List String
  structuralElements : List String
  semanticTags : List String
  deriving DecidableEq, Repr

structure SuggestedAction where
  action : String
  priority : ℚ
  reasoning : String
  prerequisites : List String
  expectedOutcome : String
  deriving DecidableEq, Repr

structure IntentAnalysis where
  primaryIntent : String
  secondaryIntents : List String
  urgencyLevel : String
  complexityLevel : String
  suggestedActions : List SuggestedAction
  contextDependencies : List String
  deriving DecidableEq, Repr

structure ApplicationContext where
  activeApplication : String
  windowTitle : String
  selectedText : Option String
  recentActions : List UserAction
  deriving DecidableEq, Repr

structure ScreenContext where
  id : String
  timestamp : Int
  environment : EnvironmentType
  activity : ActivityType
  confidence : ℚ
  applicationDetails : ApplicationContext
  visibleContent : ContentAnalysis
  userIntent : IntentAnalysis
  contextSources : List ContextSource
  deriving DecidableEq, Repr

structure ContextOutcome where
  success : Bool
  metric : String
  value : ℚ
  feedback : String
  deriving DecidableEq, Repr

structure ContextSnapshot where
  context : ScreenContext
  userActions : List UserAction
  outcomes : List ContextOutcome
  duration : ℚ
  deriving DecidableEq, Repr

structure ContextTrigger where
  type : String
  condition : String
  weight : ℚ
  deriving DecidableEq, Repr

structure PatternOutcome where
  pattern : String
  frequency : ℚ
  successRate : ℚ
  averageValue : ℚ
  deriving DecidableEq, Repr

structure ContextPattern where
  id : String
  name : String
  frequency : ℚ
  contexts : List ScreenContext
  triggers : List ContextTrigger
  outcomes : List PatternOutcome
  confidence : ℚ
  deriving DecidableEq, Repr

inductive CompressionStrategy where
  | nocompress | summarize | aggregate
  deriving DecidableEq, Repr

structure ContextMemoryConfig where
  maxHistorySize : Nat
  patternDetectionThreshold : Nat
  contextRetentionPeriod : Int
  compressionStrategy : CompressionStrategy
  deriving DecidableEq, Repr

/-- The mutable state of a `ContextMemory` instance: its configuration,
the snapshot history and the insertion-ordered pattern map. -/
structure MemoryState where
  config : ContextMemoryConfig
  contextHistory : List ContextSnapshot
  contextPatterns : List (String × ContextPattern)
  deriving DecidableEq, Repr

structure Tool where
  name : String
  version : String
  capabilities : List String
  integrations : List String
  deriving DecidableEq, Repr

structure Convention where
  type : String
  description : String
  importance : ℚ
  examples : List String
  deriving DecidableEq, Repr

structure DomainPattern where
  name : String
  description : String
  frequency : ℚ
  examples : List String
  deriving DecidableEq, Repr

structure Resource where
  name : String
  type : String
  url : Option String
  description : String
  relevance : ℚ
  deriving DecidableEq, Repr

structure DomainContext where
  domain : String
  expertise : ExpertiseLevel
  tools : List Tool
  conventions : List Convention
  patterns : List DomainPattern
  resources : List Resource
  deriving DecidableEq, Repr

structure ContextQualityMetrics where
  accuracy : ℚ
  completeness : ℚ
  relevance : ℚ
  timeliness : ℚ
  actionability : ℚ
  overallScore : ℚ
  deriving DecidableEq, Repr

structure Action where
  id : String
  type : String
  description : String
  priority : ℚ
  dependencies : List String
  estimatedImpact : ℚ
  deriving DecidableEq, Repr

structure ConfidenceFactor where
  factor : String
  weight : ℚ
  value : ℚ
  reasoning : String
  deriving DecidableEq, Repr

structure SynthesisMetadata where
  processingTime : ℚ
  sourcesUsed : List ContextSource
  modelsInvolved : List String
  confidenceFactors : List ConfidenceFactor
  deriving DecidableEq, Repr

structure EngineeredContext where
  id : String
  timestamp : Int
  situationalContext : String
  relevantHistory : List ContextSnapshot
  domainSpecificInfo : DomainContext
  suggestedActions : List Action
  contextQuality : ContextQualityMetrics
  synthesisMetadata : SynthesisMetadata
  deriving DecidableEq, Repr

def expertiseToString : ExpertiseLevel → String
  | .beginner => "beginner"
  | .intermediate => "intermediate"
  | .advanced => "advanced"
  | .expert => "expert"

/-! ## ContextMemory (src/src/engines/ContextMemory.ts) -/

/-- `calculateRelevanceScore` (ContextMemory.ts lines 148-176): environment
0.3, activity 0.25, application 0.2, recency up to 0.15 over 24 hours,
historical confidence up to 0.1; total capped at 1. -/
def calculateRelevanceScore (current historical : ScreenContext) : ℚ :=
  let score : ℚ := 0
  let score := if current.environment = historical.environment then score + 0.3 else score
  let score := if current.activity = historical.activity then score + 0.25 else score
  let score :=
    if current.applicationDetails.activeApplication =
        historical.applicationDetails.activeApplication then score + 0.2 else score
  let timeDiff : ℚ := ((current.timestamp - historical.timestamp : Int) : ℚ)
  let maxTime : ℚ := 24 * 60 * 60 * 1000
  let timeScore := max 0 (1 - timeDiff / maxTime)
  let score := score + timeScore * 0.15
  let score := score + historical.confidence * 0.1
  min 1 score

/-- Model of `arr.slice(-n)` for a non-negative integer count `n`.
JavaScript evaluates `-0` as `0`, so `n = 0` yields the whole array
rather than the empty one. -/
def jsSliceLast {α : Type} (l : List α) (n : Nat) : List α :=
  if n = 0 then l else l.drop (l.length - n)

/-- `identifyTriggers` (ContextMemory.ts lines 361-382). -/
def identifyTriggers (snapshot : ContextSnapshot) : List ContextTrigger :=
  let context := snapshot.context
  let appTriggers : List ContextTrigger :=
    if context.applicationDetails.activeApplication ≠ "" then
      [{ type := "application",
         condition := "app=" ++ context.applicationDetails.activeApplication,
         weight := 0.8 }]
    else []
  appTriggers ++
    [{ type := "environment",
       condition := "env=" ++ envToString context.environment,
       weight := 0.6 }]

/-- Lookup in the insertion-ordered pattern map (JavaScript `Map.get`). -/
def patternsGet (m : List (String × ContextPattern)) (k : String) : Option ContextPattern :=
  (m.find? (fun p => p.1 = k)).map (·.2)

/-- Update in the insertion-ordered pattern map (JavaScript `Map.set`):
overwrite in place when the key exists, append otherwise. -/
def patternsSet (m : List (String × ContextPattern)) (k : String) (v : ContextPattern) :
    List (String × ContextPattern) :=
  if m.any (fun p => p.1 = k) then
    m.map (fun p => if p.1 = k then (k, v) else p)
  else m ++ [(k, v)]

/-- `updatePatterns` (ContextMemory.ts lines 181-203): combined
`<environment>-<activity>` key; first occurrence gets frequency 1 and
confidence 0.1, repeats increment frequency and set confidence to
`min(1, frequency/10)`. -/
def updatePatterns (patterns : List (String × ContextPattern)) (snapshot : ContextSnapshot) :
    List (String × ContextPattern) :=
  let context := snapshot.context
  let patternKey := envToString context.environment ++ "-" ++ activityToString context.activity
  match patternsGet patterns patternKey with
  | none =>
      patternsSet patterns patternKey
        { id := patternKey
          name := envToString context.environment ++ " " ++
            activityToString context.activity ++ " pattern"
          frequency := 1
          contexts := [context]
          triggers := identifyTriggers snapshot
          outcomes := []
          confidence := 0.1 }
  | some existing =>
      patternsSet patterns patternKey
        { existing with
          frequency := existing.frequency + 1
          contexts := existing.contexts ++ [context]
          confidence := min 1 ((existing.frequency + 1) / 10) }

/-- `addContextSnapshot` (ContextMemory.ts lines 28-51): append the
snapshot, trim to the last `maxHistorySize` entries when the bound is
exceeded, then run the incremental pattern update. -/
def addContextSnapshot (s : MemoryState) (context : ScreenContext)
    (userActions : List UserAction) (outcomes : List ContextOutcome)
    (duration : ℚ) : MemoryState :=
  let snapshot : ContextSnapshot := { context, userActions, outcomes, duration }
  let history := s.contextHistory ++ [snapshot]
  let history :=
    if history.length > s.config.maxHistorySize then
      jsSliceLast history s.config.maxHistorySize
    else history
  { s with contextHistory := history
           contextPatterns := updatePatterns s.contextPatterns snapshot }

/-- `getRelevantContext` (ContextMemory.ts lines 56-75): drop the query's
own id, score, sort descending by score (stable), take the first
`maxResults`. -/
def getRelevantContext (s : MemoryState) (currentContext : ScreenContext)
    (maxResults : Nat) : List ContextSnapshot :=
  let filtered := s.contextHistory.filter (fun snapshot => snapshot.context.id ≠ currentContext.id)
  let scored := filtered.map (fun snapshot =>
    (snapshot, calculateRelevanceScore currentContext snapshot.context))
  let sorted := List.insertionSort (fun a b => b.2 ≤ a.2) scored
  (sorted.take maxResults).map (·.1)

/-- `cleanup` (ContextMemory.ts lines 131-143): keep only snapshots with
`timestamp > now - contextRetentionPeriod`. -/
def cleanup (s : MemoryState) (now : Int) : MemoryState :=
  let cutoffTime := now - s.config.contextRetentionPeriod
  { s with contextHistory :=
      s.contextHistory.filter (fun snapshot => snapshot.context.timestamp > cutoffTime) }

/-- Keys of a JavaScript `Map` built by one left-to-right grouping pass,
in insertion (first-occurrence) order. -/
def firstSeen {α κ : Type} [DecidableEq κ] (f : α → κ) (l : List α) : List κ :=
  l.foldl (fun acc a => if f a ∈ acc then acc else acc ++ [f a]) []

/-- Grouping by a key function, keys in first-occurrence order and each
group in original order — the model of the `Map`-based grouping loops. -/
def groupsBy {α κ : Type} [DecidableEq κ] (f : α → κ) (l : List α) : List (κ × List α) :=
  (firstSeen f l).map (fun k => (k, l.filter (fun a => f a = k)))

/-- `extractCommonTriggers` (ContextMemory.ts lines 310-324). -/
def extractCommonTriggers (snapshots : List ContextSnapshot) : List ContextTrigger :=
  match snapshots with
  | [] => []
  | first :: _ =>
      [{ type := "environment",
         condition := "environment=" ++ envToString first.context.environment,
         weight := 0.7 }]

/-- `extractCommonOutcomes` (ContextMemory.ts lines 329-356): aggregate
outcome statistics per metric, metrics in first-occurrence order. -/
def extractCommonOutcomes (snapshots : List ContextSnapshot) : List PatternOutcome :=
  let allOutcomes := (snapshots.map (·.outcomes)).flatten
  (groupsBy (·.metric) allOutcomes).map (fun g =>
    let outcomes := g.2
    let count : ℚ := outcomes.length
    let successes : ℚ := (outcomes.filter (·.success)).length
    let totalValue : ℚ := (outcomes.map (·.value)).sum
    { pattern := g.1
      frequency := count
      successRate := successes / count
      averageValue := totalValue / count })

/-- `identifyEnvironmentPatterns` (ContextMemory.ts lines 208-237):
groups meeting the detection threshold become patterns with confidence
`min(1, count/20)`. -/
def identifyEnvironmentPatterns (cfg : ContextMemoryConfig) (history : List ContextSnapshot) :
    List ContextPattern :=
  (groupsBy (fun s => s.context.environment) history).filterMap (fun g =>
    let snapshots := g.2
    if snapshots.length ≥ cfg.patternDetectionThreshold then
      some { id := "env-" ++ envToString g.1
             name := envToString g.1 ++ " environment pattern"
             frequency := (snapshots.length : ℚ)
             contexts := snapshots.map (·.context)
             triggers := extractCommonTriggers snapshots
             outcomes := extractCommonOutcomes snapshots
             confidence := min 1 ((snapshots.length : ℚ) / 20) }
    else none)

/-- `identifyActivityPatterns` (ContextMemory.ts lines 242-271):
confidence `min(1, count/15)`. -/
def identifyActivityPatterns (cfg : ContextMemoryConfig) (history : List ContextSnapshot) :
    List ContextPattern :=
  (groupsBy (fun s => s.context.activity) history).filterMap (fun g =>
    let snapshots := g.2
    if snapshots.length ≥ cfg.patternDetectionThreshold then
      some { id := "activity-" ++ activityToString g.1
             name := activityToString g.1 ++ " activity pattern"
             frequency := (snapshots.length : ℚ)
             contexts := snapshots.map (·.context)
             triggers := extractCommonTriggers snapshots
             outcomes := extractCommonOutcomes snapshots
             confidence := min 1 ((snapshots.length : ℚ) / 15) }
    else none)

/-- Hour of day of a millisecond timestamp, the model of
`new Date(ts).getHours()` (UTC reading). -/
def hourOfTimestamp (ts : Int) : Int :=
  (ts / 3600000) % 24

/-- `identifyTemporalPatterns` (ContextMemory.ts lines 276-305):
confidence `min(1, count/10)`. -/
def identifyTemporalPatterns (cfg : ContextMemoryConfig) (history : List ContextSnapshot) :
    List ContextPattern :=
  (groupsBy (fun s => hourOfTimestamp s.context.timestamp) history).filterMap (fun g =>
    let snapshots := g.2
    if snapshots.length ≥ cfg.patternDetectionThreshold then
      some { id := "time-" ++ toString g.1
             name := toString g.1 ++ ":00 temporal pattern"
             frequency := (snapshots.length : ℚ)
             contexts := snapshots.map (·.context)
             triggers := [{ type := "temporal"
                            condition := "hour=" ++ toString g.1
                            weight := 1 }]
             outcomes := extractCommonOutcomes snapshots
             confidence := min 1 ((snapshots.length : ℚ) / 10) }
    else none)

/-- The pattern list `identifyPatterns` computes from a fixed history:
environment patterns, then activity patterns, then temporal patterns
(ContextMemory.ts lines 80-102). -/
def patternsOfHistory (cfg : ContextMemoryConfig) (history : List ContextSnapshot) :
    List ContextPattern :=
  identifyEnvironmentPatterns cfg history ++
    identifyActivityPatterns cfg history ++
    identifyTemporalPatterns cfg history

/-- `identifyPatterns` (ContextMemory.ts lines 80-102): returns the mined
patterns and stores each in the pattern map keyed by its id. -/
def identifyPatterns (s : MemoryState) : List ContextPattern × MemoryState :=
  let patterns := patternsOfHistory s.config s.contextHistory
  (patterns,
   { s with contextPatterns := patterns.foldl (fun m p => patternsSet m p.id p) s.contextPatterns })

/-! ## ContextSynthesizer (src/src/engines/ContextSynthesizer.ts) -/

/-- `calculateHistoricalRelevance` (ContextSynthesizer.ts lines 365-385):
environment 0.3, activity 0.25, application 0.2, recency up to 0.25 over
24 hours; no confidence term and no cap. -/
def calculateHistoricalRelevance (current historical : ScreenContext) : ℚ :=
  let relevance : ℚ := 0
  let relevance := if current.environment = historical.environment then relevance + 0.3 else relevance
  let relevance := if current.activity = historical.activity then relevance + 0.25 else relevance
  let relevance :=
    if current.applicationDetails.activeApplication =
        historical.applicationDetails.activeApplication then relevance + 0.2 else relevance
  let timeDiff : ℚ := ((current.timestamp - historical.timestamp : Int) : ℚ)
  let timeWeight := max 0 (1 - timeDiff / (24 * 60 * 60 * 1000))
  relevance + timeWeight * 0.25

/-- `selectRelevantHistory` (ContextSynthesizer.ts lines 152-170): score
every snapshot (no id filtering), sort descending, take the first
`maxResults`. -/
def selectRelevantHistory (currentContext : ScreenContext) (history : List ContextSnapshot)
    (maxResults : Nat) : List ContextSnapshot :=
  if history.length = 0 then []
  else
    let scoredHistory := history.map (fun snapshot =>
      (snapshot, calculateHistoricalRelevance currentContext snapshot.context))
    ((List.insertionSort (fun a b => b.2 ≤ a.2) scoredHistory).take maxResults).map (·.1)

/-- The `parts` array built by `generateSituationalDescription`
(ContextSynthesizer.ts lines 115-147). The window title is truncated to
its first 50 characters — `substring(0, 50)` modelled charwise — and the
ellipsis is appended when the truncated title still has 50 characters
(`cleanTitle.length >= 50` in the source). -/
def situationalParts (context : ScreenContext) : List String :=
  ["User is working in a " ++ envToString context.environment ++ " environment"]
  ++ (if context.activity ≠ ActivityType.idle then
        ["currently engaged in " ++ activityToString context.activity] else [])
  ++ (if context.applicationDetails.activeApplication ≠ "unknown" then
        ["using " ++ context.applicationDetails.activeApplication] else [])
  ++ (if context.applicationDetails.windowTitle ≠ "" then
        let cleanTitle := context.applicationDetails.windowTitle.toList.take 50
        ["with focus on \"" ++ String.mk cleanTitle ++
          (if 50 ≤ cleanTitle.length then "..." else "") ++ "\""]
      else [])
  ++ (if context.visibleContent.codeSnippets.length > 0 then
        ["with code content visible"] else [])
  ++ [( "(" ++
        (if context.confidence > 0.8 then "high"
         else if context.confidence > 0.5 then "moderate" else "low") ++
        " confidence)")]

/-- `generateSituationalDescription` (ContextSynthesizer.ts lines
115-147): the parts joined with single spaces. The source takes an
additional `weights` argument that its body never reads; it is omitted
here. -/
def generateSituationalDescription (context : ScreenContext) : String :=
  joinWith " " (situationalParts context)

/-- `calculateCompleteness` (ContextSynthesizer.ts lines 388-398). -/
def calculateCompleteness (context : ScreenContext) (domainContext : DomainContext) : ℚ :=
  let completeness : ℚ := 0.4
  let completeness := if context.environment ≠ EnvironmentType.unknown then completeness + 0.15 else completeness
  let completeness := if context.activity ≠ ActivityType.idle then completeness + 0.15 else completeness
  let completeness :=
    if context.applicationDetails.activeApplication ≠ "unknown" then completeness + 0.1 else completeness
  let completeness :=
    if context.applicationDetails.windowTitle ≠ "" then completeness + 0.1 else completeness
  if domainContext.tools.length > 0 then completeness + 0.1 else completeness

/-- `calculateRelevance` (ContextSynthesizer.ts lines 400-417). -/
def calculateRelevance (context : ScreenContext) (domainContext : DomainContext)
    (history : List ContextSnapshot) : ℚ :=
  let relevance : ℚ := 0.5
  let relevance := if domainContext.domain ≠ "general" then relevance + 0.2 else relevance
  let relevance :=
    if history.length > 0 then relevance + min 0.2 ((history.length : ℚ) * 0.05) else relevance
  relevance + context.confidence * 0.1

/-- `calculateTimeliness` (ContextSynthesizer.ts lines 419-424):
`max(0, 1 - age/5min)` with `age = now - timestamp`. -/
def calculateTimeliness (now : Int) (context : ScreenContext) : ℚ :=
  let age : ℚ := ((now - context.timestamp : Int) : ℚ)
  let maxAge : ℚ := 5 * 60 * 1000
  max 0 (1 - age / maxAge)

/-- `calculateActionability` (ContextSynthesizer.ts lines 426-439). -/
def calculateActionability (context : ScreenContext) (domainContext : DomainContext) : ℚ :=
  let actionability : ℚ := 0.3
  let actionability := actionability + (context.userIntent.suggestedActions.length : ℚ) * 0.1
  let actionability := actionability + (domainContext.tools.length : ℚ) * 0.05
  let actionability :=
    if context.environment ≠ EnvironmentType.unknown then actionability + 0.2 else actionability
  min 1 actionability

/-- `assessContextQuality` (ContextSynthesizer.ts lines 211-248): the
five raw sub-scores, the weighted overall sum computed from the raw
(pre-clamp) values, and the record with every field clamped to at most 1.
`now` stands for the `Date.now()` read inside `calculateTimeliness`. -/
def assessContextQuality (now : Int) (context : ScreenContext) (domainContext : DomainContext)
    (relevantHistory : List ContextSnapshot) : ContextQualityMetrics :=
  let accuracy := context.confidence * 0.8 + ((context.contextSources.length : ℚ) / 5) * 0.2
  let completeness := calculateCompleteness context domainContext
  let relevance := calculateRelevance context domainContext relevantHistory
  let timeliness := calculateTimeliness now context
  let actionability := calculateActionability context domainContext
  let overallScore :=
    accuracy * 0.25 + completeness * 0.2 + relevance * 0.2 +
      timeliness * 0.15 + actionability * 0.2
  { accuracy := min 1 accuracy
    completeness := min 1 completeness
    relevance := min 1 relevance
    timeliness := min 1 timeliness
    actionability := min 1 actionability
    overallScore := min 1 overallScore }

/-! ## ContextAnalyzer (src/src/engines/ContextAnalyzer.ts) -/

/-- The optional auxiliary-signal record passed to the analyzer. -/
structure AdditionalData where
  windowTitle : Option String
  activeApplication : Option String
  clipboardContent : Option String
  selectedText : Option String
  deriving DecidableEq, Repr

/-- Result of `categorizeEnvironment`. -/
structure EnvCategorization where
  type : EnvironmentType
  confidence : ℚ
  indicators : List String
  deriving DecidableEq, Repr

def ideIndicators : List String :=
  ["visual studio", "vscode", "intellij", "pycharm", "webstorm",
   "sublime", "atom", "vim", "emacs", "code", "jetbrains"]

def browserIndicators : List String :=
  ["chrome", "firefox", "safari", "edge", "opera", "browser"]

def designIndicators : List String :=
  ["figma", "sketch", "photoshop", "illustrator", "indesign",
   "xd", "canva", "affinity"]

def documentIndicators : List String :=
  ["word", "docs", "pages", "writer", "document", "notion",
   "obsidian", "typora", "markdown"]

def terminalIndicators : List String :=
  ["terminal", "iterm", "cmd", "powershell", "bash", "zsh",
   "command", "console"]

/-- `isIdeEnvironment` (ContextAnalyzer.ts lines 274-282). -/
def isIdeEnvironment (title app : String) : Bool :=
  ideIndicators.any (fun ind => strIncludes title ind || strIncludes app ind)

/-- `isBrowserEnvironment` (ContextAnalyzer.ts lines 284-291). -/
def isBrowserEnvironment (title app : String) : Bool :=
  browserIndicators.any (fun ind => strIncludes title ind || strIncludes app ind)

/-- `isDesignEnvironment` (ContextAnalyzer.ts lines 293-301). -/
def isDesignEnvironment (title app : String) : Bool :=
  designIndicators.any (fun ind => strIncludes title ind || strIncludes app ind)

/-- `isDocumentEnvironment` (ContextAnalyzer.ts lines 303-311). -/
def isDocumentEnvironment (title app : String) : Bool :=
  documentIndicators.any (fun ind => strIncludes title ind || strIncludes app ind)

/-- `isTerminalEnvironment` (ContextAnalyzer.ts lines 313-321). -/
def isTerminalEnvironment (title app : String) : Bool :=
  terminalIndicators.any (fun ind => strIncludes title ind || strIncludes app ind)

/-- `categorizeEnvironment` (ContextAnalyzer.ts lines 96-143): tests the
five vocabularies in order IDE, browser, design, document, terminal on
the lower-cased window title and application name; falls back to
`unknown` with confidence 0.1. -/
def categorizeEnvironment (screenshots : List String)
    (additionalData : Option AdditionalData) : EnvCategorization :=
  let _ := screenshots
  let failure : EnvCategorization :=
    { type := .unknown, confidence := 0.1, indicators := ["Unable to determine environment"] }
  match additionalData with
  | none => failure
  | some d =>
    if jsTruthy d.windowTitle || jsTruthy d.activeApplication then
      let title := lowerStr (d.windowTitle.getD "")
      let app := lowerStr (d.activeApplication.getD "")
      if isIdeEnvironment title app then
        { type := .ide, confidence := 0 + 0.4, indicators := ["IDE application detected"] }
      else if isBrowserEnvironment title app then
        { type := .browser, confidence := 0 + 0.3, indicators := ["Browser application detected"] }
      else if isDesignEnvironment title app then
        { type := .design, confidence := 0 + 0.4, indicators := ["Design application detected"] }
      else if isDocumentEnvironment title app then
        { type := .document, confidence := 0 + 0.3, indicators := ["Document application detected"] }
      else if isTerminalEnvironment title app then
        { type := .terminal, confidence := 0 + 0.4, indicators := ["Terminal application detected"] }
      else failure
    else failure

/-- The five sub-classification confidences available to the analyzer's
confidence aggregation. -/
structure AnalysisSubResults where
  environmentConfidence : ℚ
  activityConfidence : ℚ
  applicationConfidence : ℚ
  contentConfidence : ℚ
  intentConfidence : ℚ
  deriving DecidableEq, Repr

/-- `calculateContextConfidence` (ContextAnalyzer.ts lines 243-255): the
body declares a weight table (environment 0.3, activity 0.2, application
0.2, content 0.2, intent 0.1) but then returns the placeholder constant
0.7 under a TODO, ignoring its argument. -/
def calculateContextConfidence (analysisResults : AnalysisSubResults) : ℚ :=
  let _ := analysisResults
  0.7

/-! ## PromptEngineer (src/unnamed/part_004) -/

structure TemplateVariable where
  name : String
  type : String
  required : Bool
  description : String
  deriving DecidableEq, Repr

structure TemplateConstraint where
  type : String
  constraint : String
  priority : ℚ
  deriving DecidableEq, Repr

structure TemplateMetadata where
  usageCount : ℚ
  successRate : ℚ
  averageRating : ℚ
  deriving DecidableEq, Repr

/-- A prompt template; the source field `variables` is named
`templateVariables` here because `variables` is reserved in Lean. -/
structure PromptTemplate where
  id : String
  name : String
  description : String
  objective : String
  domain : String
  template : String
  templateVariables : List TemplateVariable
  constraints : List TemplateConstraint
  metadata : TemplateMetadata
  deriving DecidableEq, Repr

/-- `summarizeHistoricalContext` (PromptEngineer lines 406-409). -/
def summarizeHistoricalContext (history : List ContextSnapshot) : String :=
  if history.length = 0 then "No relevant history available"
  else "Based on " ++ toString history.length ++ " previous similar contexts"

/-- `adaptPromptToContext` (PromptEngineer lines 114-140): substitute the
eight fixed variable names, in source order, by global literal
replacement of the `\x7b\x7bKEY\x7d\x7d` placeholders. The function is
total: it has no failure path and leaves any other placeholder intact. -/
def adaptPromptToContext (template : PromptTemplate) (engineeredContext : EngineeredContext)
    (userQuery : String) : String :=
  let variableList : List (String × String) :=
    [("USER_QUERY", userQuery),
     ("CONTEXT", engineeredContext.situationalContext),
     ("DOMAIN", engineeredContext.domainSpecificInfo.domain),
     ("ENVIRONMENT",
       if strIncludes engineeredContext.situationalContext "ide" then "development" else "general"),
     ("EXPERTISE_LEVEL", expertiseToString engineeredContext.domainSpecificInfo.expertise),
     ("SUGGESTED_ACTIONS", joinWith ", " (engineeredContext.suggestedActions.map (·.description))),
     ("HISTORICAL_CONTEXT", summarizeHistoricalContext engineeredContext.relevantHistory),
     ("TOOLS", joinWith ", " (engineeredContext.domainSpecificInfo.tools.map (·.name)))]
  variableList.foldl
    (fun prompt kv => replaceAllStr prompt ("\x7b\x7b" ++ kv.1 ++ "\x7d\x7d") kv.2)
    template.template

/-! ## Concrete fixtures for counterexamples and witnesses -/

def emptyContent : ContentAnalysis :=
  { textContent := [], codeSnippets := [], uiElements := [], mediaElements := [],
    structuralElements := [], semanticTags := [] }

def emptyIntent : IntentAnalysis :=
  { primaryIntent := "unknown", secondaryIntents := [], urgencyLevel := "medium",
    complexityLevel := "moderate", suggestedActions := [], contextDependencies := [] }

def mkScreenContext (id : String) (ts : Int) (env : EnvironmentType) (act : ActivityType)
    (conf : ℚ) (app : String) (title : String) : ScreenContext :=
  { id := id, timestamp := ts, environment := env, activity := act, confidence := conf,
    applicationDetails :=
      { activeApplication := app, windowTitle := title, selectedText := none, recentActions := [] },
    visibleContent := emptyContent, userIntent := emptyIntent,
    contextSources := [ContextSource.screenshot] }

/-- A query context and a historical context that agree on environment,
activity, application and timestamp, with historical confidence 0. -/
def c1cur : ScreenContext := mkScreenContext "cur" 0 .ide .coding 0.5 "Code" ""

def c1hist : ScreenContext := mkScreenContext "hist" 0 .ide .coding 0 "Code" ""

def c1wcur : ScreenContext := mkScreenContext "wc" 0 .ide .coding 0.5 "Code" ""

def c1whist : ScreenContext := mkScreenContext "wh" 0 .browser .coding 1 "Other" ""

/-! ## Claim theorems -/

def snapOf (c : ScreenContext) : ContextSnapshot :=
  { context := c, userActions := [], outcomes := [], duration := 0 }

def ctxA : ScreenContext := mkScreenContext "a" 0 .ide .coding 0.5 "Code" ""

def ctxB : ScreenContext := mkScreenContext "b" 100 .browser .research 0.5 "Chrome" ""

def ctxC : ScreenContext := mkScreenContext "c" 4500 .terminal .debugging 0.5 "Bash" ""

/-- A memory configured with `maxHistorySize = 0`. -/
def cfg0 : ContextMemoryConfig :=
  { maxHistorySize := 0, patternDetectionThreshold := 3,
    contextRetentionPeriod := 1000, compressionStrategy := .nocompress }

def s3zero : MemoryState := { config := cfg0, contextHistory := [], contextPatterns := [] }

def cfg2 : ContextMemoryConfig :=
  { maxHistorySize := 2, patternDetectionThreshold := 3,
    contextRetentionPeriod := 1000, compressionStrategy := .nocompress }

def s3w : MemoryState :=
  { config := cfg2, contextHistory := [snapOf ctxB, snapOf ctxC], contextPatterns := [] }

def domainGeneral : DomainContext :=
  { domain := "general", expertise := .intermediate, tools := [],
    conventions := [], patterns := [], resources := [] }

/-- A context with confidence 1 and six context sources, whose raw
accuracy sub-score 1.04 exceeds 1 before clamping. -/
def ctx5 : ScreenContext :=
  { id := "q", timestamp := 0, environment := .unknown, activity := .idle, confidence := 1,
    applicationDetails :=
      { activeApplication := "unknown", windowTitle := "", selectedText := none,
        recentActions := [] },
    visibleContent := emptyContent, userIntent := emptyIntent,
    contextSources := [.screenshot, .screenshot, .screenshot, .screenshot,
      .screenshot, .screenshot] }

def ctx5w : ScreenContext := mkScreenContext "w5" 0 .ide .coding 0.5 "Code" "main.ts"

def cfg1 : ContextMemoryConfig :=
  { maxHistorySize := 10, patternDetectionThreshold := 1,
    contextRetentionPeriod := 1000, compressionStrategy := .nocompress }

def s7 : MemoryState := { config := cfg1, contextHistory := [snapOf ctxA], contextPatterns := [] }

/-- The environment pattern mined from the one-snapshot history of `s7`. -/
def p7 : ContextPattern :=
  { id := "env-ide", name := "ide environment pattern", frequency := 1,
    contexts := [ctxA],
    triggers := [{ type := "environment", condition := "environment=ide", weight := 0.7 }],
    outcomes := [], confidence := 1/20 }

def d8 : AdditionalData :=
  { windowTitle := some "My vscode window", activeApplication := none,
    clipboardContent := none, selectedText := none }

/-- An auxiliary record whose window title matches the browser vocabulary
and no earlier vocabulary. -/
def d8b : AdditionalData :=
  { windowTitle := some "Mozilla Firefox", activeApplication := none,
    clipboardContent := none, selectedText := none }

/-- An auxiliary record whose signals match no vocabulary. -/
def d8n : AdditionalData :=
  { windowTitle := some "untitled text", activeApplication := none,
    clipboardContent := none, selectedText := none }

/-- A window title of exactly 50 characters. -/
def title50 : String := "aaaaaaaaaaaaaaaaaaaaaaaaaaaaaaaaaaaaaaaaaaaaaaaaaa"

def ctx9 : ScreenContext := mkScreenContext "c9" 0 .unknown .idle 0 "unknown" title50

def ctx9w : ScreenContext := mkScreenContext "c9w" 0 .ide .coding 0.9 "Code" "main.ts"

def curX : ScreenContext := mkScreenContext "cur" 1000 .ide .coding 0.9 "Code" ""

def otherX : ScreenContext := mkScreenContext "other" 1000 .browser .research 0.5 "Chrome" ""

def snapSelf : ContextSnapshot := snapOf curX

def snapOther : ContextSnapshot := snapOf otherX

def s10 : MemoryState :=
  { config := cfg2, contextHistory := [snapOther, snapSelf], contextPatterns := [] }

def tmetaZero : TemplateMetadata := { usageCount := 0, successRate := 0.8, averageRating := 4 }

/-- A template whose body uses a required variable outside the eight
fixed names substituted by `adaptPromptToContext`. -/
def tmplTask : PromptTemplate :=
  { id := "custom", name := "Custom", description := "", objective := "analysis",
    domain := "general", template := "Do \x7b\x7bTASK\x7d\x7d",
    templateVariables :=
      [{ name := "TASK", type := "string", required := true, description := "the task" }],
    constraints := [], metadata := tmetaZero }

def qualityZero : ContextQualityMetrics :=
  { accuracy := 0, completeness := 0, relevance := 0, timeliness := 0,
    actionability := 0, overallScore := 0 }

def synthMetaZero : SynthesisMetadata :=
  { processingTime := 0, sourcesUsed := [], modelsInvolved := [], confidenceFactors := [] }

def ec0 : EngineeredContext :=
  { id := "ec", timestamp := 0, situationalContext := "terminal session",
    relevantHistory := [], domainSpecificInfo := domainGeneral, suggestedActions := [],
    contextQuality := qualityZero, synthesisMetadata := synthMetaZero }

lemma relevance_min_eq (b t : ℚ) (h : b + t * 0.25 ≤ 1) :
    min 1 (b + t * 0.15 + t * 0.1) = b + t * 0.25 := by
  have e : b + t * 0.15 + t * 0.1 = b + t * 0.25 := by ring
  rw [e, min_eq_right h]

/-- C1 (counterexample): with equal environment, activity, application and
timestamp but historical confidence 0, Memory's scorer returns 0.9 while
the Synthesizer's returns 1, so the two scoring functions are not equal. -/
theorem c1_counterexample :
    calculateRelevanceScore c1cur c1hist ≠ calculateHistoricalRelevance c1cur c1hist := by
  simp only [calculateRelevanceScore, calculateHistoricalRelevance, c1cur, c1hist, mkScreenContext]
  norm_num

/-- C1 (amended): the two scorers share the environment 0.3, activity 0.25
and application 0.2 contributions, but Memory adds recency·0.15 plus
historical confidence·0.1 capped at 1 while the Synthesizer adds
recency·0.25 with no confidence term and no cap; they return equal scores
exactly on inputs where the historical confidence equals the recency
factor and the Synthesizer's uncapped total is at most 1. -/
theorem c1_scorers_agree (current historical : ScreenContext)
    (hconf : historical.confidence =
      max 0 (1 - ((current.timestamp - historical.timestamp : Int) : ℚ) / (24 * 60 * 60 * 1000)))
    (hcap : calculateHistoricalRelevance current historical ≤ 1) :
    calculateRelevanceScore current historical = calculateHistoricalRelevance current historical := by
  simp only [calculateRelevanceScore, calculateHistoricalRelevance] at hcap ⊢
  rw [hconf]
  exact relevance_min_eq _ _ hcap

/-- C1 (witness): the agreement theorem applied at a concrete pair. -/
theorem c1_scorers_agree_witness :
    calculateRelevanceScore c1wcur c1whist = calculateHistoricalRelevance c1wcur c1whist :=
  c1_scorers_agree c1wcur c1whist
    (by simp only [c1wcur, c1whist, mkScreenContext]; norm_num)
    (by simp [calculateHistoricalRelevance, c1wcur, c1whist, mkScreenContext]; norm_num)

/-- C2: the analyzer's overall-confidence computation ignores the five
sub-classification confidences entirely and returns the placeholder
constant 0.7, so the produced confidence is a constant, not the declared
weighted combination. -/
theorem c2_confidence_is_constant :
    ∀ r s : AnalysisSubResults,
      calculateContextConfidence r = calculateContextConfidence s ∧
      calculateContextConfidence r = 0.7 :=
  fun _ _ => ⟨rfl, rfl⟩

/-- C3 (counterexample): with a configured maximum history size of 0,
recording into an empty memory leaves one snapshot in the history —
`slice(-0)` is `slice(0)` in JavaScript, so the bound is not enforced and
the history length exceeds the configured maximum. -/
theorem c3_counterexample :
    (addContextSnapshot s3zero ctxA [] [] 0).contextHistory.length >
      s3zero.config.maxHistorySize := by
  decide

/-- C3 (amended): provided the configured maximum history size is at
least 1, after every `record` the history length equals
`min (previous length + 1) maxHistorySize` — so it never exceeds the
maximum — and the retained history is a suffix of the previous history
plus the new snapshot (the evicted entries are the oldest ones); and
after every `cleanup`, no retained snapshot has a context timestamp
earlier than `now` minus the retention period. -/
theorem c3_retention (s : MemoryState) (context : ScreenContext)
    (userActions : List UserAction) (outcomes : List ContextOutcome) (duration : ℚ)
    (now : Int) (hmax : 1 ≤ s.config.maxHistorySize) :
    (addContextSnapshot s context userActions outcomes duration).contextHistory.length =
      min (s.contextHistory.length + 1) s.config.maxHistorySize ∧
    (addContextSnapshot s context userActions outcomes duration).contextHistory <:+
      s.contextHistory ++ [{ context := context, userActions := userActions,
                             outcomes := outcomes, duration := duration }] ∧
    ∀ snap ∈ (cleanup s now).contextHistory,
      ¬ snap.context.timestamp < now - s.config.contextRetentionPeriod := by
  refine ⟨?_, ?_, ?_⟩
  · simp only [addContextSnapshot, jsSliceLast]
    by_cases hgt :
        (s.contextHistory ++ [({ context := context, userActions := userActions,
                                 outcomes := outcomes, duration := duration } : ContextSnapshot)]).length >
          s.config.maxHistorySize
    · rw [if_pos hgt, if_neg (by omega)]
      simp only [List.length_drop, List.length_append, List.length_cons,
        List.length_nil] at hgt ⊢
      omega
    · rw [if_neg hgt]
      simp only [List.length_append, List.length_cons, List.length_nil] at hgt ⊢
      omega
  · simp only [addContextSnapshot, jsSliceLast]
    by_cases hgt :
        (s.contextHistory ++ [({ context := context, userActions := userActions,
                                 outcomes := outcomes, duration := duration } : ContextSnapshot)]).length >
          s.config.maxHistorySize
    · rw [if_pos hgt, if_neg (by omega)]
      exact List.drop_suffix _ _
    · rw [if_neg hgt]
  · intro snap hsnap
    simp only [cleanup, List.mem_filter, decide_eq_true_eq] at hsnap
    omega

/-- C3 (witness): the retention theorem applied at a concrete memory of
capacity 2 holding two snapshots. -/
theorem c3_retention_witness :
    (addContextSnapshot s3w ctxA [] [] 0).contextHistory.length =
      min (s3w.contextHistory.length + 1) s3w.config.maxHistorySize ∧
    (addContextSnapshot s3w ctxA [] [] 0).contextHistory <:+
      s3w.contextHistory ++ [{ context := ctxA, userActions := [],
                               outcomes := [], duration := 0 }] ∧
    ∀ snap ∈ (cleanup s3w 5000).contextHistory,
      ¬ snap.context.timestamp < 5000 - s3w.config.contextRetentionPeriod :=
  c3_retention s3w ctxA [] [] 0 5000 (by decide)

/-- C4: for every memory state, query context and result bound,
`getRelevantContext` returns no snapshot carrying the query's id, returns
at most `maxResults` snapshots, and returns them in descending order of
the relevance score computed against the query. -/
theorem c4_retrieval (s : MemoryState) (currentContext : ScreenContext) (maxResults : Nat) :
    (∀ snap ∈ getRelevantContext s currentContext maxResults,
       snap.context.id ≠ currentContext.id) ∧
    (getRelevantContext s currentContext maxResults).length ≤ maxResults ∧
    List.Pairwise
      (fun a b => calculateRelevanceScore currentContext b.context ≤
        calculateRelevanceScore currentContext a.context)
      (getRelevantContext s currentContext maxResults) := by
  haveI hTot : IsTotal (ContextSnapshot × ℚ) (fun a b => b.2 ≤ a.2) :=
    ⟨fun a b => le_total b.2 a.2⟩
  haveI hTrans : IsTrans (ContextSnapshot × ℚ) (fun a b => b.2 ≤ a.2) :=
    ⟨fun _ _ _ hab hbc => le_trans hbc hab⟩
  simp only [getRelevantContext]
  refine ⟨?_, ?_, ?_⟩
  · intro snap hsnap
    simp only [List.mem_map] at hsnap
    obtain ⟨p, hp, rfl⟩ := hsnap
    have hp1 := (List.perm_insertionSort (fun a b : ContextSnapshot × ℚ => b.2 ≤ a.2) _).mem_iff.mp
      (List.mem_of_mem_take hp)
    simp only [List.mem_map] at hp1
    obtain ⟨snap', hsnap', rfl⟩ := hp1
    have := List.of_mem_filter hsnap'
    simpa using this
  · simp only [List.length_map, List.length_take]
    omega
  · rw [List.pairwise_map]
    have hmem : ∀ p ∈ List.take maxResults
        (List.insertionSort (fun a b : ContextSnapshot × ℚ => b.2 ≤ a.2)
          ((s.contextHistory.filter
              (fun snapshot => snapshot.context.id ≠ currentContext.id)).map
            (fun snapshot =>
              (snapshot, calculateRelevanceScore currentContext snapshot.context)))),
        p.2 = calculateRelevanceScore currentContext p.1.context := by
      intro p hp
      have hp1 := (List.perm_insertionSort (fun a b : ContextSnapshot × ℚ => b.2 ≤ a.2) _).mem_iff.mp
        (List.mem_of_mem_take hp)
      simp only [List.mem_map] at hp1
      obtain ⟨snap', _, rfl⟩ := hp1
      rfl
    have hsorted := List.sorted_insertionSort (fun a b : ContextSnapshot × ℚ => b.2 ≤ a.2)
      ((s.contextHistory.filter
          (fun snapshot => snapshot.context.id ≠ currentContext.id)).map
        (fun snapshot =>
          (snapshot, calculateRelevanceScore currentContext snapshot.context)))
    have htaken := hsorted.sublist (List.take_sublist maxResults _)
    exact htaken.imp_of_mem (fun ha hb hr => by
      rw [← hmem _ ha, ← hmem _ hb]; exact hr)

/-- C5 (counterexample): the overall score is computed from the raw
(pre-clamp) sub-scores; at a context whose raw accuracy is 1.04 the
reported overall score (0.67) differs from the clamped weighted sum of
the reported (clamped) sub-scores (0.66). -/
theorem c5_counterexample :
    (assessContextQuality 0 ctx5 domainGeneral []).overallScore ≠
      min 1 ((assessContextQuality 0 ctx5 domainGeneral []).accuracy * 0.25 +
        (assessContextQuality 0 ctx5 domainGeneral []).completeness * 0.2 +
        (assessContextQuality 0 ctx5 domainGeneral []).relevance * 0.2 +
        (assessContextQuality 0 ctx5 domainGeneral []).timeliness * 0.15 +
        (assessContextQuality 0 ctx5 domainGeneral []).actionability * 0.2) := by
  simp [assessContextQuality, calculateCompleteness, calculateRelevance,
    calculateTimeliness, calculateActionability, ctx5, domainGeneral,
    emptyContent, emptyIntent]
  norm_num

/-- C5 (amended): for a context with confidence in [0,1] all five reported
sub-scores and the overall score lie in [0,1]; the overall score is the
clamped weighted sum (0.25/0.2/0.2/0.15/0.2) of the pre-clamp sub-scores,
which coincides with the clamped weighted sum of the reported sub-scores
whenever the context has at most five context sources and a non-future
timestamp; and under a non-future timestamp the reported timeliness equals
`max(0, 1 - age/5min)`. -/
theorem c5_quality_bounds (now : Int) (context : ScreenContext) (domainContext : DomainContext)
    (history : List ContextSnapshot)
    (h0 : 0 ≤ context.confidence) (h1 : context.confidence ≤ 1) :
    (∀ q ∈ [(assessContextQuality now context domainContext history).accuracy,
            (assessContextQuality now context domainContext history).completeness,
            (assessContextQuality now context domainContext history).relevance,
            (assessContextQuality now context domainContext history).timeliness,
            (assessContextQuality now context domainContext history).actionability,
            (assessContextQuality now context domainContext history).overallScore],
       0 ≤ q ∧ q ≤ 1) ∧
    (context.contextSources.length ≤ 5 → context.timestamp ≤ now →
      (assessContextQuality now context domainContext history).overallScore =
        min 1 ((assessContextQuality now context domainContext history).accuracy * 0.25 +
          (assessContextQuality now context domainContext history).completeness * 0.2 +
          (assessContextQuality now context domainContext history).relevance * 0.2 +
          (assessContextQuality now context domainContext history).timeliness * 0.15 +
          (assessContextQuality now context domainContext history).actionability * 0.2)) ∧
    (context.timestamp ≤ now →
      (assessContextQuality now context domainContext history).timeliness =
        max 0 (1 - ((now - context.timestamp : Int) : ℚ) / (5 * 60 * 1000))) := by
  have hA0 : (0:ℚ) ≤ context.confidence * 0.8 +
      ((context.contextSources.length : ℚ) / 5) * 0.2 := by
    have h8 := mul_nonneg h0 (show (0:ℚ) ≤ 0.8 by norm_num)
    have h2 : (0:ℚ) ≤ ((context.contextSources.length : ℚ) / 5) * 0.2 := by positivity
    linarith
  have hC : (0.4:ℚ) ≤ calculateCompleteness context domainContext ∧
      calculateCompleteness context domainContext ≤ 1 := by
    simp only [calculateCompleteness]
    split_ifs <;> norm_num
  have hR : (0:ℚ) ≤ calculateRelevance context domainContext history ∧
      calculateRelevance context domainContext history ≤ 1 := by
    have hm0 : (0:ℚ) ≤ min 0.2 ((history.length : ℚ) * 0.05) :=
      le_min (by norm_num) (by positivity)
    have hm1 : min 0.2 ((history.length : ℚ) * 0.05) ≤ 0.2 := min_le_left _ _
    have hc0 : (0:ℚ) ≤ context.confidence * 0.1 := mul_nonneg h0 (by norm_num)
    have hc1 : context.confidence * 0.1 ≤ 0.1 := by nlinarith
    simp only [calculateRelevance]
    split_ifs <;> constructor <;> linarith
  have hT0 : (0:ℚ) ≤ calculateTimeliness now context := le_max_left _ _
  have hAct : (0:ℚ) ≤ calculateActionability context domainContext ∧
      calculateActionability context domainContext ≤ 1 := by
    have ha : (0:ℚ) ≤ (context.userIntent.suggestedActions.length : ℚ) * 0.1 := by positivity
    have hb : (0:ℚ) ≤ (domainContext.tools.length : ℚ) * 0.05 := by positivity
    refine ⟨?_, min_le_left _ _⟩
    simp only [calculateActionability]
    split_ifs <;> exact le_min (by norm_num) (by linarith)
  have hTle : context.timestamp ≤ now → calculateTimeliness now context ≤ 1 := by
    intro hts
    have hage : (0:ℚ) ≤ ((now - context.timestamp : Int) : ℚ) := by
      have : (0:Int) ≤ now - context.timestamp := by omega
      exact_mod_cast this
    have hdiv : (0:ℚ) ≤ ((now - context.timestamp : Int) : ℚ) / (5 * 60 * 1000) := by positivity
    simp only [calculateTimeliness]
    exact max_le (by norm_num) (by linarith)
  refine ⟨?_, ?_, ?_⟩
  · intro q hq
    simp only [assessContextQuality] at hq
    fin_cases hq
    · exact ⟨le_min (by norm_num) hA0, min_le_left _ _⟩
    · exact ⟨le_min (by norm_num) (by linarith [hC.1]), min_le_left _ _⟩
    · exact ⟨le_min (by norm_num) hR.1, min_le_left _ _⟩
    · exact ⟨le_min (by norm_num) hT0, min_le_left _ _⟩
    · exact ⟨le_min (by norm_num) hAct.1, min_le_left _ _⟩
    · exact ⟨le_min (by norm_num) (by nlinarith [hA0, hC.1, hR.1, hT0, hAct.1]),
        min_le_left _ _⟩
  · intro hsources hts
    have hcast : ((context.contextSources.length : ℚ)) ≤ 5 := by exact_mod_cast hsources
    have hc8 : context.confidence * 0.8 ≤ 0.8 := by nlinarith
    have hA1 : context.confidence * 0.8 +
        ((context.contextSources.length : ℚ) / 5) * 0.2 ≤ 1 := by linarith
    have hT1 := hTle hts
    simp only [assessContextQuality]
    rw [min_eq_right hA1, min_eq_right hC.2, min_eq_right hR.2,
      min_eq_right hT1, min_eq_right hAct.2]
  · intro hts
    have hT1 := hTle hts
    simp only [assessContextQuality]
    rw [min_eq_right hT1]
    simp only [calculateTimeliness]

/-- C5 (witness): the quality-bounds theorem applied at a concrete
context of confidence 0.5 with one context source. -/
theorem c5_quality_bounds_witness :
    (∀ q ∈ [(assessContextQuality 0 ctx5w domainGeneral []).accuracy,
            (assessContextQuality 0 ctx5w domainGeneral []).completeness,
            (assessContextQuality 0 ctx5w domainGeneral []).relevance,
            (assessContextQuality 0 ctx5w domainGeneral []).timeliness,
            (assessContextQuality 0 ctx5w domainGeneral []).actionability,
            (assessContextQuality 0 ctx5w domainGeneral []).overallScore],
       0 ≤ q ∧ q ≤ 1) ∧
    (ctx5w.contextSources.length ≤ 5 → ctx5w.timestamp ≤ 0 →
      (assessContextQuality 0 ctx5w domainGeneral []).overallScore =
        min 1 ((assessContextQuality 0 ctx5w domainGeneral []).accuracy * 0.25 +
          (assessContextQuality 0 ctx5w domainGeneral []).completeness * 0.2 +
          (assessContextQuality 0 ctx5w domainGeneral []).relevance * 0.2 +
          (assessContextQuality 0 ctx5w domainGeneral []).timeliness * 0.15 +
          (assessContextQuality 0 ctx5w domainGeneral []).actionability * 0.2)) ∧
    (ctx5w.timestamp ≤ 0 →
      (assessContextQuality 0 ctx5w domainGeneral []).timeliness =
        max 0 (1 - ((0 - ctx5w.timestamp : Int) : ℚ) / (5 * 60 * 1000))) :=
  c5_quality_bounds 0 ctx5w domainGeneral []
    (by simp only [ctx5w, mkScreenContext]; norm_num)
    (by simp only [ctx5w, mkScreenContext]; norm_num)

/-- C7: mining patterns twice in succession without an intervening record
yields the same pattern list (the mining pass reads only the history and
configuration, which it never modifies), and every mined pattern's
confidence follows the family formula `min(1, count/K)` with K = 20 for
environment patterns, 15 for activity patterns and 10 for hour-of-day
patterns. -/
theorem c7_mining_idempotent (s : MemoryState) :
    (identifyPatterns ((identifyPatterns s).2)).1 = (identifyPatterns s).1 ∧
    (∀ p ∈ identifyEnvironmentPatterns s.config s.contextHistory,
       p.confidence = min 1 (p.frequency / 20)) ∧
    (∀ p ∈ identifyActivityPatterns s.config s.contextHistory,
       p.confidence = min 1 (p.frequency / 15)) ∧
    (∀ p ∈ identifyTemporalPatterns s.config s.contextHistory,
       p.confidence = min 1 (p.frequency / 10)) := by
  refine ⟨rfl, ?_, ?_, ?_⟩
  · intro p hp
    simp only [identifyEnvironmentPatterns, List.mem_filterMap] at hp
    obtain ⟨g, hg, hsome⟩ := hp
    split at hsome
    · simp only [Option.some.injEq] at hsome
      subst hsome
      rfl
    · simp at hsome
  · intro p hp
    simp only [identifyActivityPatterns, List.mem_filterMap] at hp
    obtain ⟨g, hg, hsome⟩ := hp
    split at hsome
    · simp only [Option.some.injEq] at hsome
      subst hsome
      rfl
    · simp at hsome
  · intro p hp
    simp only [identifyTemporalPatterns, List.mem_filterMap] at hp
    obtain ⟨g, hg, hsome⟩ := hp
    split at hsome
    · simp only [Option.some.injEq] at hsome
      subst hsome
      rfl
    · simp at hsome

/-- C7 (witness): the confidence formula read off the concrete environment
pattern mined from a one-snapshot history. -/
theorem c7_mining_idempotent_witness :
    p7.confidence = min 1 (p7.frequency / 20) :=
  (c7_mining_idempotent s7).2.1 p7 (by
    simp [identifyEnvironmentPatterns, groupsBy, firstSeen, extractCommonTriggers,
      extractCommonOutcomes, s7, cfg1, snapOf, ctxA, mkScreenContext, p7, envToString]
    norm_num)

lemma leadMatch_map {f : Char → Char} :
    ∀ {p s : List Char}, leadMatch s p = true → leadMatch (s.map f) (p.map f) = true := by
  intro p
  induction p with
  | nil => intro s _; cases s <;> rfl
  | cons q ps ih =>
    intro s h
    cases s with
    | nil => simp [leadMatch] at h
    | cons c cs =>
      simp only [leadMatch, Bool.and_eq_true, beq_iff_eq] at h
      simp only [List.map_cons, leadMatch, Bool.and_eq_true, beq_iff_eq]
      exact ⟨by rw [h.1], ih h.2⟩

lemma subMatch_map {f : Char → Char} :
    ∀ {s p : List Char}, subMatch p s = true → subMatch (p.map f) (s.map f) = true := by
  intro s
  induction s with
  | nil =>
    intro p h
    simp only [subMatch, List.isEmpty_iff] at h
    subst h
    rfl
  | cons c cs ih =>
    intro p h
    simp only [subMatch, Bool.or_eq_true] at h
    simp only [List.map_cons, subMatch, Bool.or_eq_true]
    rcases h with h | h
    · exact Or.inl (leadMatch_map h)
    · exact Or.inr (ih h)

lemma strIncludes_lower {s : String} (h : strIncludes s "vscode" = true) :
    strIncludes (lowerStr s) "vscode" = true := by
  have hm := subMatch_map (f := Char.toLower) h
  rw [show ("vscode".toList.map Char.toLower) = "vscode".toList from by decide] at hm
  exact hm

lemma strIncludes_ne_empty {s : String} (h : strIncludes s "vscode" = true) : s ≠ "" := by
  intro hs
  rw [hs] at h
  exact absurd h (by decide)

/-- C8: any auxiliary record whose window title contains "vscode" is
classified as `ide` with sub-confidence at least 0.4; for a truthy
auxiliary signal the five vocabularies are tested in the fixed order
IDE, browser, design, document, terminal, the first hit deciding the
result with increment +0.4 for IDE/design/terminal and +0.3 for
browser/document; and with no auxiliary record, no truthy signal, or no
vocabulary match the classification is `unknown` with confidence 0.1. -/
theorem c8_categorize (screenshots : List String) (d : AdditionalData) :
    (∀ wt, d.windowTitle = some wt → strIncludes wt "vscode" = true →
      (categorizeEnvironment screenshots (some d)).type = .ide ∧
      0.4 ≤ (categorizeEnvironment screenshots (some d)).confidence) ∧
    ((jsTruthy d.windowTitle || jsTruthy d.activeApplication) = true →
      isIdeEnvironment (lowerStr (d.windowTitle.getD ""))
          (lowerStr (d.activeApplication.getD "")) = true →
      categorizeEnvironment screenshots (some d) =
        { type := .ide, confidence := 0 + 0.4, indicators := ["IDE application detected"] }) ∧
    ((jsTruthy d.windowTitle || jsTruthy d.activeApplication) = true →
      isIdeEnvironment (lowerStr (d.windowTitle.getD ""))
          (lowerStr (d.activeApplication.getD "")) = false →
      isBrowserEnvironment (lowerStr (d.windowTitle.getD ""))
          (lowerStr (d.activeApplication.getD "")) = true →
      categorizeEnvironment screenshots (some d) =
        { type := .browser, confidence := 0 + 0.3,
          indicators := ["Browser application detected"] }) ∧
    ((jsTruthy d.windowTitle || jsTruthy d.activeApplication) = true →
      isIdeEnvironment (lowerStr (d.windowTitle.getD ""))
          (lowerStr (d.activeApplication.getD "")) = false →
      isBrowserEnvironment (lowerStr (d.windowTitle.getD ""))
          (lowerStr (d.activeApplication.getD "")) = false →
      isDesignEnvironment (lowerStr (d.windowTitle.getD ""))
          (lowerStr (d.activeApplication.getD "")) = true →
      categorizeEnvironment screenshots (some d) =
        { type := .design, confidence := 0 + 0.4,
          indicators := ["Design application detected"] }) ∧
    ((jsTruthy d.windowTitle || jsTruthy d.activeApplication) = true →
      isIdeEnvironment (lowerStr (d.windowTitle.getD ""))
          (lowerStr (d.activeApplication.getD "")) = false →
      isBrowserEnvironment (lowerStr (d.windowTitle.getD ""))
          (lowerStr (d.activeApplication.getD "")) = false →
      isDesignEnvironment (lowerStr (d.windowTitle.getD ""))
          (lowerStr (d.activeApplication.getD "")) = false →
      isDocumentEnvironment (lowerStr (d.windowTitle.getD ""))
          (lowerStr (d.activeApplication.getD "")) = true →
      categorizeEnvironment screenshots (some d) =
        { type := .document, confidence := 0 + 0.3,
          indicators := ["Document application detected"] }) ∧
    ((jsTruthy d.windowTitle || jsTruthy d.activeApplication) = true →
      isIdeEnvironment (lowerStr (d.windowTitle.getD ""))
          (lowerStr (d.activeApplication.getD "")) = false →
      isBrowserEnvironment (lowerStr (d.windowTitle.getD ""))
          (lowerStr (d.activeApplication.getD "")) = false →
      isDesignEnvironment (lowerStr (d.windowTitle.getD ""))
          (lowerStr (d.activeApplication.getD "")) = false →
      isDocumentEnvironment (lowerStr (d.windowTitle.getD ""))
          (lowerStr (d.activeApplication.getD "")) = false →
      isTerminalEnvironment (lowerStr (d.windowTitle.getD ""))
          (lowerStr (d.activeApplication.getD "")) = true →
      categorizeEnvironment screenshots (some d) =
        { type := .terminal, confidence := 0 + 0.4,
          indicators := ["Terminal application detected"] }) ∧
    ((jsTruthy d.windowTitle || jsTruthy d.activeApplication) = true →
      isIdeEnvironment (lowerStr (d.windowTitle.getD ""))
          (lowerStr (d.activeApplication.getD "")) = false →
      isBrowserEnvironment (lowerStr (d.windowTitle.getD ""))
          (lowerStr (d.activeApplication.getD "")) = false →
      isDesignEnvironment (lowerStr (d.windowTitle.getD ""))
          (lowerStr (d.activeApplication.getD "")) = false →
      isDocumentEnvironment (lowerStr (d.windowTitle.getD ""))
          (lowerStr (d.activeApplication.getD "")) = false →
      isTerminalEnvironment (lowerStr (d.windowTitle.getD ""))
          (lowerStr (d.activeApplication.getD "")) = false →
      categorizeEnvironment screenshots (some d) =
        { type := .unknown, confidence := 0.1,
          indicators := ["Unable to determine environment"] }) ∧
    (categorizeEnvironment screenshots none =
      { type := .unknown, confidence := 0.1,
        indicators := ["Unable to determine environment"] }) ∧
    ((jsTruthy d.windowTitle || jsTruthy d.activeApplication) = false →
      categorizeEnvironment screenshots (some d) =
        { type := .unknown, confidence := 0.1,
          indicators := ["Unable to determine environment"] }) := by
  have hbranch : ∀ hcond : (jsTruthy d.windowTitle || jsTruthy d.activeApplication) = true,
      ∀ hide : isIdeEnvironment (lowerStr (d.windowTitle.getD ""))
          (lowerStr (d.activeApplication.getD "")) = true,
      categorizeEnvironment screenshots (some d) =
        { type := .ide, confidence := 0 + 0.4, indicators := ["IDE application detected"] } := by
    intro hcond hide
    simp only [categorizeEnvironment]
    rw [if_pos hcond, if_pos hide]
  refine ⟨?_, hbranch, ?_, ?_, ?_, ?_, ?_, rfl, ?_⟩
  · intro wt hwt hvs
    have hne : wt ≠ "" := strIncludes_ne_empty hvs
    have htruthy : jsTruthy d.windowTitle = true := by
      rw [hwt]
      simp [jsTruthy, hne]
    have hcond : (jsTruthy d.windowTitle || jsTruthy d.activeApplication) = true := by
      rw [htruthy]; rfl
    have hide : isIdeEnvironment (lowerStr (d.windowTitle.getD ""))
        (lowerStr (d.activeApplication.getD "")) = true := by
      apply List.any_eq_true.mpr
      refine ⟨"vscode", by decide, ?_⟩
      have : strIncludes (lowerStr (d.windowTitle.getD "")) "vscode" = true := by
        rw [hwt]
        exact strIncludes_lower hvs
      rw [this]
      rfl
    rw [hbranch hcond hide]
    exact ⟨rfl, by norm_num⟩
  · intro hc h1 h2
    simp only [categorizeEnvironment]
    rw [if_pos hc, if_neg (by simp [h1]), if_pos h2]
  · intro hc h1 h2 h3
    simp only [categorizeEnvironment]
    rw [if_pos hc, if_neg (by simp [h1]), if_neg (by simp [h2]), if_pos h3]
  · intro hc h1 h2 h3 h4
    simp only [categorizeEnvironment]
    rw [if_pos hc, if_neg (by simp [h1]), if_neg (by simp [h2]),
      if_neg (by simp [h3]), if_pos h4]
  · intro hc h1 h2 h3 h4 h5
    simp only [categorizeEnvironment]
    rw [if_pos hc, if_neg (by simp [h1]), if_neg (by simp [h2]),
      if_neg (by simp [h3]), if_neg (by simp [h4]), if_pos h5]
  · intro hc h1 h2 h3 h4 h5
    simp only [categorizeEnvironment]
    rw [if_pos hc, if_neg (by simp [h1]), if_neg (by simp [h2]),
      if_neg (by simp [h3]), if_neg (by simp [h4]), if_neg (by simp [h5])]
  · intro hcond
    simp only [categorizeEnvironment]
    rw [if_neg (by simp [hcond])]

/-- C8 (witness): the categorization theorem applied to concrete
auxiliary records — a "vscode" title, a browser title that skips the IDE
vocabulary, and a no-match title falling through to `unknown` 0.1. -/
theorem c8_categorize_witness :
    ((categorizeEnvironment [] (some d8)).type = .ide ∧
      0.4 ≤ (categorizeEnvironment [] (some d8)).confidence) ∧
    categorizeEnvironment [] (some d8b) =
      { type := .browser, confidence := 0 + 0.3,
        indicators := ["Browser application detected"] } ∧
    categorizeEnvironment [] (some d8n) =
      { type := .unknown, confidence := 0.1,
        indicators := ["Unable to determine environment"] } :=
  ⟨(c8_categorize [] d8).1 "My vscode window" rfl (by decide),
   (c8_categorize [] d8b).2.2.1 (by decide) (by decide) (by decide),
   (c8_categorize [] d8n).2.2.2.2.2.2.1 (by decide) (by decide) (by decide)
     (by decide) (by decide) (by decide)⟩

lemma joinWith_cons_ne (sep p : String) {l : List String} (h : l ≠ []) :
    joinWith sep (p :: l) = p ++ sep ++ joinWith sep l := by
  cases l with
  | nil => exact absurd rfl h
  | cons q qs => rfl

lemma joinWith_split_mem (sep x : String) :
    ∀ l : List String, x ∈ l → ∃ pre post : String, joinWith sep l = pre ++ x ++ post := by
  intro l hx
  induction l with
  | nil => cases hx
  | cons p ps ih =>
    rcases List.mem_cons.mp hx with rfl | hmem
    · cases ps with
      | nil => exact ⟨"", "", by simp [joinWith]⟩
      | cons q qs =>
        refine ⟨"", sep ++ joinWith sep (q :: qs), ?_⟩
        rw [joinWith_cons_ne sep x (by simp)]
        simp [String.append_assoc]
    · obtain ⟨pre, post, hpp⟩ := ih hmem
      have hne : ps ≠ [] := by rintro rfl; cases hmem
      refine ⟨p ++ sep ++ pre, post, ?_⟩
      rw [joinWith_cons_ne sep p hne, hpp]
      simp [String.append_assoc]

/-- C9 (counterexample): a window title of exactly 50 characters — not
longer than 50 — still gets the ellipsis: the source's condition is
`cleanTitle.length >= 50`, which already holds at 50. -/
theorem c9_counterexample :
    ctx9.applicationDetails.windowTitle.toList.length = 50 ∧
    generateSituationalDescription ctx9 =
      "User is working in a unknown environment with focus on \"" ++ title50 ++
        "...\" (low confidence)" := by
  constructor
  · decide
  · simp only [generateSituationalDescription, situationalParts, ctx9, mkScreenContext,
      emptyContent, emptyIntent,
      show ¬((0:ℚ) > 0.8) from by norm_num, show ¬((0:ℚ) > 0.5) from by norm_num]
    decide

/-- C9 (amended): for every context with a non-empty window title, the
situational description contains the clause built from the first 50
characters of the title, and the ellipsis is appended exactly when the
title has 50 or more characters (the source tests the truncated title's
length against 50, so a title of exactly 50 characters already gets the
ellipsis). -/
theorem c9_title_truncation (context : ScreenContext)
    (h : context.applicationDetails.windowTitle ≠ "") :
    ∃ pre post ell : String,
      generateSituationalDescription context =
        pre ++ ("with focus on \"" ++
          String.mk (context.applicationDetails.windowTitle.toList.take 50) ++
          ell ++ "\"") ++ post ∧
      (ell = "..." ↔ 50 ≤ context.applicationDetails.windowTitle.toList.length) ∧
      (ell = "..." ∨ ell = "") := by
  have hminiff : 50 ≤ (context.applicationDetails.windowTitle.toList.take 50).length ↔
      50 ≤ context.applicationDetails.windowTitle.toList.length := by
    rw [List.length_take]
    omega
  have hclause :
      ("with focus on \"" ++
        String.mk (context.applicationDetails.windowTitle.toList.take 50) ++
        (if 50 ≤ (context.applicationDetails.windowTitle.toList.take 50).length
          then "..." else "") ++ "\"") ∈ situationalParts context := by
    simp only [situationalParts]
    rw [if_pos h]
    simp
  obtain ⟨pre, post, hsplit⟩ := joinWith_split_mem " " _ _ hclause
  refine ⟨pre, post,
    (if 50 ≤ (context.applicationDetails.windowTitle.toList.take 50).length
      then "..." else ""), hsplit, ?_, ?_⟩
  · by_cases hlen : 50 ≤ context.applicationDetails.windowTitle.toList.length
    · rw [if_pos (hminiff.mpr hlen)]
      exact iff_of_true rfl hlen
    · rw [if_neg (fun hc => hlen (hminiff.mp hc))]
      exact iff_of_false (by decide) hlen
  · by_cases hc : 50 ≤ (context.applicationDetails.windowTitle.toList.take 50).length
    · exact Or.inl (if_pos hc)
    · exact Or.inr (if_neg hc)

/-- C9 (witness): the truncation theorem applied to a context with the
short window title "main.ts". -/
theorem c9_title_truncation_witness :
    ∃ pre post ell : String,
      generateSituationalDescription ctx9w =
        pre ++ ("with focus on \"" ++
          String.mk (ctx9w.applicationDetails.windowTitle.toList.take 50) ++
          ell ++ "\"") ++ post ∧
      (ell = "..." ↔ 50 ≤ ctx9w.applicationDetails.windowTitle.toList.length) ∧
      (ell = "..." ∨ ell = "") :=
  c9_title_truncation ctx9w (by decide)

/-- C10: the Synthesizer's history selection performs no self-exclusion:
on a history containing a snapshot whose context IS the current context,
that snapshot scores the maximal relevance 1 and is returned first, while
Memory's `getRelevantContext` on the same history filters the query's id
out and returns only the other snapshot. -/
theorem c10_no_self_exclusion :
    selectRelevantHistory curX [snapOther, snapSelf] 5 = [snapSelf, snapOther] ∧
    snapSelf.context.id = curX.id ∧
    calculateHistoricalRelevance curX snapSelf.context = 1 ∧
    getRelevantContext s10 curX 5 = [snapOther] := by
  have hself : calculateHistoricalRelevance curX curX = 1 := by
    simp [calculateHistoricalRelevance, curX, mkScreenContext]
    norm_num
  have hother : calculateHistoricalRelevance curX otherX = 1/4 := by
    simp [calculateHistoricalRelevance, curX, otherX, mkScreenContext]
    norm_num
  have hmem : calculateRelevanceScore curX otherX = 1/5 := by
    simp [calculateRelevanceScore, curX, otherX, mkScreenContext]
    norm_num
  refine ⟨?_, rfl, ?_, ?_⟩
  · simp only [selectRelevantHistory, snapSelf, snapOther, snapOf, List.map_cons,
      List.map_nil, List.insertionSort, List.orderedInsert, hself, hother,
      show ((1:ℚ) ≤ 1/4) = False from by norm_num]
    simp [List.take]
  · simp only [snapSelf, snapOf]
    exact hself
  · simp only [getRelevantContext, s10, cfg2, snapSelf, snapOther, snapOf, curX, otherX,
      mkScreenContext]
    simp [List.filter, List.insertionSort, List.orderedInsert, hmem, List.take]

/-- C6: template adaptation substitutes only the eight fixed variable
names and has no failure path; a required variable named outside that set
survives verbatim in the produced prompt — the adapted prompt still
contains the required placeholder and no template-adaptation error is
raised (the function is total and returns the string unchanged). -/
theorem c6_unresolved_placeholder :
    adaptPromptToContext tmplTask ec0 "fix the bug" = "Do \x7b\x7bTASK\x7d\x7d" ∧
    (tmplTask.templateVariables.any (fun v => v.required &&
      strIncludes (adaptPromptToContext tmplTask ec0 "fix the bug")
        ("\x7b\x7b" ++ v.name ++ "\x7d\x7d"))) = true := by
  constructor <;> decide

/-- C4 (witness): the retrieval theorem applied at a concrete memory whose
relevant result is the single non-query snapshot. -/
theorem c4_retrieval_witness :
    snapOther.context.id ≠ curX.id ∧ (getRelevantContext s10 curX 5).length ≤ 5 :=
  ⟨(c4_retrieval s10 curX 5).1 snapOther (by
      have hmem : calculateRelevanceScore curX otherX = 1/5 := by
        simp [calculateRelevanceScore, curX, otherX, mkScreenContext]
        norm_num
      simp only [getRelevantContext, s10, cfg2, snapSelf, snapOther, snapOf, curX, otherX,
        mkScreenContext]
      simp [List.filter, List.insertionSort, List.orderedInsert, hmem, List.take]),
   (c4_retrieval s10 curX 5).2.1⟩

end Kontext
